import Mathlib

/-!
Verification of the SIP message parsing core of pyVoIP
(`pyVoIP/SIP/message/message.py`): the message classifier/factory
`SIPMessage.from_bytes`, the string overload `SIPMessage.from_string`,
and the common constructor `SIPMessage.__init__`.

Modelling conventions:
* Python `bytes` and `str` values are both modelled as `List Char`
  (sequences of code points); UTF-8 decoding/encoding of the start line
  is modelled as the identity, since all branching in the code happens
  on ASCII content.
* Python exceptions are modelled by the inductive type `Exc`; a parse
  runs in `Except Exc`.  `Exc.sipMsg` is a `SIPParseError` raised
  directly with a message string; `Exc.sipWrap` is a `SIPParseError`
  constructed by wrapping another exception (`SIPParseError(e)`), which
  retains its cause; the remaining constructors are non-`SIPParseError`
  Python exceptions.
* External collaborators (`parse_raw_headers`, `get_uri_header`,
  `parse_message_for_body_parts`, the `ResponseCode` enum lookup and the
  compatible-version set) live outside the given sources; they are
  passed in as an explicit `Config`, mirroring the spec's description of
  them as external collaborators / process-wide configuration.
-/

namespace PyVoIP

/-- Python byte strings / strings, modelled as lists of code points. -/
abbrev PyStr := List Char

/-- Dynamically typed Python values (header values, body payloads,
destination descriptors): `None`, strings, dicts and lists. -/
inductive PyVal where
  | pynone
  | pystr (s : PyStr)
  | pydict (entries : List (PyStr × PyVal))
  | pylist (elems : List PyVal)

/-- A parsed header mapping (`Dict[str, Any]`), as an association list
whose keys are unique (Python dict semantics: lookup is on the key). -/
abbrev Headers := List (PyStr × PyVal)

/-- The body-part sequence returned by `parse_message_for_body_parts`:
an ordered list of (content-type, payload) pairs. -/
abbrev BodyParts := List (PyStr × PyVal)

/-- Python exceptions relevant to the parse.  `sipMsg` and `sipWrap` are
the two ways a `SIPParseError` is constructed in the code (from a
message string, or by wrapping another exception as its cause); the
others are non-`SIPParseError` exceptions. -/
inductive Exc where
  | sipMsg (msg : PyStr)
  | sipWrap (cause : Exc)
  | indexError
  | valueError (msg : PyStr)
  | other (name : PyStr)

/-- `type(e) is SIPParseError`: whether the exception is an instance of
the canonical parse-error class. -/
def Exc.isSIPParseError : Exc → Bool
  | Exc.sipMsg _ => true
  | Exc.sipWrap _ => true
  | _ => false

/-- Whether the exception is the generic wrapped-failure form
`SIPParseError(e)` (an exception carried as cause), as opposed to a
`SIPParseError` raised directly with a message. -/
def Exc.isWrappedFailure : Exc → Bool
  | Exc.sipWrap _ => true
  | _ => false

/-- Push a character onto the first chunk of a split result. -/
def consHead (c : Char) : List PyStr → List PyStr
  | [] => [[c]]
  | t :: ts => (c :: t) :: ts

/-- Python `s.split(sep)` for a one-character separator `sep`
(e.g. `start_line = first_line.split(" ")`): splits at every
occurrence, keeping empty chunks; always returns at least one chunk. -/
def splitChar (sep : Char) : PyStr → List PyStr
  | [] => [[]]
  | c :: rest =>
    if c = sep then [] :: splitChar sep rest else consHead c (splitChar sep rest)

/-- Python `headers.split(b"\r\n")`: split at every CRLF. -/
def splitCRLF : PyStr → List PyStr
  | [] => [[]]
  | '\r' :: '\n' :: rest => [] :: splitCRLF rest
  | c :: rest => consHead c (splitCRLF rest)

/-- Locate the first blank-line separator: Python
`data.split(b"\r\n\r\n", maxsplit=1)` succeeds in unpacking to
`headers, body` exactly when the separator occurs; `none` models the
`ValueError` branch of the tuple unpacking. -/
def splitBlank : PyStr → Option (PyStr × PyStr)
  | [] => Option.none
  | '\r' :: '\n' :: '\r' :: '\n' :: rest => Option.some ([], rest)
  | c :: rest => (splitBlank rest).map (fun p => (c :: p.1, p.2))

/-- The header block: the part before the first blank-line separator,
or the whole input when no separator occurs (the permissive fallback
`headers = data` in the `except ValueError` branch). -/
def headerBlock (data : PyStr) : PyStr :=
  match splitBlank data with
  | Option.some p => p.1
  | Option.none => data

/-- The start line split on single spaces:
`str(headers_raw.pop(0), "utf8").split(" ")`.  `splitCRLF` never
returns an empty list, so `pop(0)` cannot fail; `headD` is safe. -/
def startLineOf (data : PyStr) : List PyStr :=
  splitChar ' ' ((splitCRLF (headerBlock data)).headD [])

/-- The header lines remaining after `headers_raw.pop(0)`. -/
def headerLinesOf (data : PyStr) : List PyStr :=
  (splitCRLF (headerBlock data)).tail

/-- Python `str.upper()` (ASCII case mapping suffices here). -/
def pyUpper (s : PyStr) : PyStr := s.map Char.toUpper

/-- Parse a nonempty all-digit token to a number. -/
def digitsToNat : PyStr → Option Nat
  | [] => Option.none
  | [c] => if c.isDigit then Option.some (c.toNat - 48) else Option.none
  | c :: rest =>
    if c.isDigit then
      (digitsToNat rest).map (fun n => (c.toNat - 48) * 10 ^ rest.length + n)
    else Option.none

/-- The builtin `int(token)` on an optionally signed decimal token;
`none` models the `ValueError` it raises on non-numeric input. -/
def pyInt (s : PyStr) : Option Int :=
  match s with
  | '-' :: rest => (digitsToNat rest).map (fun n => -(n : Int))
  | '+' :: rest => (digitsToNat rest).map (fun n => (n : Int))
  | _ => (digitsToNat s).map (fun n => (n : Int))

/-- Modelled from the spec: `regex.SIP_VERSION_MATCH` (the `regex`
module is not among the given sources).  The spec describes the
protocol-version grammar as `"<NAME>/<MAJOR>.<MINOR>"`: an alphabetic
name, a slash, and a dotted numeric version. -/
def sipVersionMatch (s : PyStr) : Bool :=
  match splitChar '/' s with
  | [name, ver] =>
    match splitChar '.' ver with
    | [major, minor] =>
      !name.isEmpty && name.all Char.isAlpha &&
      !major.isEmpty && major.all Char.isDigit &&
      !minor.isEmpty && minor.all Char.isDigit
    | _ => false
  | _ => false

/-- The wire tokens of the `SIPMethod` enum, in declaration order:
`map(lambda x: str(x), list(SIPMethod))`. -/
def sipMethodStrs : List PyStr :=
  ["INVITE", "ACK", "BYE", "CANCEL", "OPTIONS", "NOTIFY", "REGISTER",
   "MESSAGE", "SUBSCRIBE", "REFER"].map String.data

/-- The message of `SIPParseError(f"SIP Version {v} not compatible.")`. -/
def versionErrMsg (v : PyStr) : PyStr :=
  "SIP Version ".data ++ v ++ " not compatible.".data

/-- The message of ``SIPParseError(f"SIP Method `{m}` not supported.")``. -/
def methodErrMsg (m : PyStr) : PyStr :=
  "SIP Method `".data ++ m ++ "` not supported.".data

/-- Python list indexing `xs[i]`, raising `IndexError` out of range. -/
def listGet : List PyStr → Nat → Except Exc PyStr
  | [], _ => Except.error Exc.indexError
  | x :: _, 0 => Except.ok x
  | _ :: xs, n + 1 => listGet xs n

/-- Modelled from the spec: the external collaborators and process-wide
configuration consumed by the classifier (`pyVoIP.SIPCompatibleVersions`,
the `ResponseCode` enum lookup, `parse_raw_headers`, `get_uri_header`
and `parse_message_for_body_parts`), none of which are among the given
sources.  Each fallible collaborator may raise any exception. -/
structure Config where
  compatibleVersions : List PyStr
  responseCode : Int → Option Int
  parseRawHeaders : List PyStr → Except Exc Headers
  getUriHeader : PyStr → Except Exc PyVal
  parseBodyParts : PyStr → Except Exc BodyParts

/-- Python dict membership `key in parsed_headers`. -/
def dictContains (h : Headers) (k : PyStr) : Bool :=
  h.any (fun e => e.1 == k)

/-- Python dict lookup `parsed_headers[key]` (after a membership
check, so a default for the absent case never surfaces). -/
def dictGetD (h : Headers) (k : PyStr) : PyVal :=
  match h.find? (fun e => e.1 == k) with
  | Option.some e => e.2
  | Option.none => PyVal.pynone

/-- The authentication resolution of `from_bytes`: strict priority
`WWW-Authenticate`, then `Authorization`, then `Proxy-Authenticate`
(first match wins), defaulting to the empty dict. -/
def resolveAuth (h : Headers) : PyVal :=
  if dictContains h "WWW-Authenticate".data then dictGetD h "WWW-Authenticate".data
  else if dictContains h "Authorization".data then dictGetD h "Authorization".data
  else if dictContains h "Proxy-Authenticate".data then dictGetD h "Proxy-Authenticate".data
  else PyVal.pydict []

/-- The session-description content type scanned for in `__init__`. -/
def sdpType : PyStr := "application/sdp".data

/-- The "no payload" sentinel `{'content': None}` of `__init__`. -/
def noPayloadSentinel : PyVal :=
  PyVal.pydict [("content".data, PyVal.pynone)]

/-- `next((t for t in body_parts if t[0] == "application/sdp"), None)`:
the first body part whose content-type is the session-description
type. -/
def findSdpTuple (bps : BodyParts) : Option (PyStr × PyVal) :=
  bps.find? (fun t => t.1 == sdpType)

/-- The common fields set by `SIPMessage.__init__`. -/
structure MessageData where
  start_line : List PyStr
  headers : Headers
  body_parts : BodyParts
  authentication : PyVal
  raw : PyStr
  body : PyVal

/-- `SIPMessage.__init__`: stores the given fields and resolves the
legacy `body` field from the body-part list (a found sdp tuple is a
2-tuple, hence always truthy in the `if sdp_tuple:` test). -/
def mkMessageData (start_line : List PyStr) (headers : Headers)
    (body_parts : BodyParts) (authentication : PyVal) (raw : PyStr) :
    MessageData :=
  { start_line := start_line, headers := headers, body_parts := body_parts,
    authentication := authentication, raw := raw,
    body :=
      match findSdpTuple body_parts with
      | Option.some t => t.2
      | Option.none => noPayloadSentinel }

/-- The discriminated result of a successful parse: `SIPRequest` with
its method and destination, or `SIPResponse` with its status. -/
inductive SIPMsg where
  | request (core : MessageData) (method : PyStr) (destination : PyVal)
  | response (core : MessageData) (status : Int)

/-- The variant-specific data bound inside the start-line branch of
`from_bytes` (`status`, or `method` and `destination`), before the
shared tail of the algorithm runs. -/
inductive VariantInfo where
  | resp (status : Int)
  | req (method : PyStr) (destination : PyVal)

/-- The start-line interpretation of `from_bytes`: classification by
the version-grammar match on the first token, then version / status /
method / destination validation in source order.  `if X not in S:
raise` appears as `if S.contains X then <rest> else error`. -/
def classifyStartLine (cfg : Config) (start_line : List PyStr) :
    Except Exc VariantInfo :=
  let check := start_line.headD []
  if sipVersionMatch check then
    if pyUpper check ∈ cfg.compatibleVersions then
      match listGet start_line 1 with
      | Except.error e => Except.error e
      | Except.ok codeTok =>
        match pyInt codeTok with
        | Option.none => Except.error (Exc.valueError "invalid literal for int".data)
        | Option.some n =>
          match cfg.responseCode n with
          | Option.none => Except.error (Exc.valueError "not a valid ResponseCode".data)
          | Option.some st => Except.ok (VariantInfo.resp st)
    else Except.error (Exc.sipMsg (versionErrMsg check))
  else
    match listGet start_line 2 with
    | Except.error e => Except.error e
    | Except.ok verTok =>
      if pyUpper verTok ∈ cfg.compatibleVersions then
        if check ∈ sipMethodStrs then
          match listGet start_line 1 with
          | Except.error e => Except.error e
          | Except.ok target =>
            match cfg.getUriHeader target with
            | Except.error e => Except.error e
            | Except.ok dest => Except.ok (VariantInfo.req check dest)
        else Except.error (Exc.sipMsg (methodErrMsg check))
      else Except.error (Exc.sipMsg (versionErrMsg verTok))

/-- The body of `SIPMessage.from_bytes` inside its outer
`try`/`except`: split off the start line (with the permissive
no-separator fallback), interpret it, tokenize the remaining header
lines, resolve authentication, extract body parts from the entire raw
message, and build the variant. -/
def from_bytes_inner (cfg : Config) (data : PyStr) : Except Exc SIPMsg :=
  match classifyStartLine cfg (startLineOf data) with
  | Except.error e => Except.error e
  | Except.ok vinfo =>
    match cfg.parseRawHeaders (headerLinesOf data) with
    | Except.error e => Except.error e
    | Except.ok parsed_headers =>
      match cfg.parseBodyParts data with
      | Except.error e => Except.error e
      | Except.ok body_parts =>
        match vinfo with
        | VariantInfo.resp st =>
          Except.ok (SIPMsg.response
            (mkMessageData (startLineOf data) parsed_headers body_parts
              (resolveAuth parsed_headers) data) st)
        | VariantInfo.req m d =>
          Except.ok (SIPMsg.request
            (mkMessageData (startLineOf data) parsed_headers body_parts
              (resolveAuth parsed_headers) data) m d)

/-- The error normalizer of the outer `except Exception` handler:
`if type(e) is not SIPParseError: raise SIPParseError(e) from e`,
otherwise re-raise unchanged. -/
def normalizeExc (e : Exc) : Exc :=
  if e.isSIPParseError then e else Exc.sipWrap e

/-- `SIPMessage.from_bytes`: the parse body with every escaping
exception normalized into the `SIPParseError` family. -/
def from_bytes (cfg : Config) (data : PyStr) : Except Exc SIPMsg :=
  (from_bytes_inner cfg data).mapError normalizeExc

/-- `data.encode("utf8")`: bytes and strings are both code-point
sequences in this model, so encoding is the identity (and total). -/
def encodeUtf8 (s : PyStr) : PyStr := s

/-- `SIPMessage.from_string`: encode, delegate to `from_bytes`, and
normalize escaping exceptions identically. -/
def from_string (cfg : Config) (data : PyStr) : Except Exc SIPMsg :=
  (from_bytes cfg (encodeUtf8 data)).mapError normalizeExc

/-- A concrete instantiation of the collaborators, used by concrete
evaluations: versions compatible with `SIP/2.0` only, a status lookup
recognizing `200`, a header tokenizer keeping each raw line as a key,
a destination resolver echoing the token, and a body-part extractor
yielding no parts. -/
def testConfig : Config :=
  { compatibleVersions := ["SIP/2.0".data],
    responseCode := fun n => if n = 200 then Option.some 200 else Option.none,
    parseRawHeaders := fun ls => Except.ok (ls.map (fun l => (l, PyVal.pynone))),
    getUriHeader := fun s => Except.ok (PyVal.pystr s),
    parseBodyParts := fun _ => Except.ok [] }

/-- Every supported method token fails the protocol-version grammar
(method tokens are purely alphabetic and contain no slash). -/
theorem sipMethod_not_versionMatch (m : PyStr) (hm : m ∈ sipMethodStrs) :
    sipVersionMatch m = false := by
  fin_cases hm <;> decide

/-- Shared computation: a request-shaped start line with supported
method, compatible (after upper-casing) version and succeeding
collaborators produces exactly the `SIPRequest` variant. -/
theorem request_ok_aux (cfg : Config) (data m t v : PyStr) (H : Headers)
    (B : BodyParts) (d : PyVal)
    (hsl : startLineOf data = [m, t, v])
    (hm : m ∈ sipMethodStrs)
    (hv : pyUpper v ∈ cfg.compatibleVersions)
    (hd : cfg.getUriHeader t = Except.ok d)
    (hH : cfg.parseRawHeaders (headerLinesOf data) = Except.ok H)
    (hB : cfg.parseBodyParts data = Except.ok B) :
    from_bytes cfg data =
      Except.ok (SIPMsg.request (mkMessageData [m, t, v] H B (resolveAuth H) data) m d) := by
  have hnv : sipVersionMatch m = false := sipMethod_not_versionMatch m hm
  unfold from_bytes from_bytes_inner classifyStartLine
  rw [hsl]
  simp [listGet, hnv, hv, hm, hd, hH, hB, Except.mapError]

/-- Shared computation: a response-shaped start line with compatible
version and a resolving status code produces exactly the `SIPResponse`
variant. -/
theorem response_ok_aux (cfg : Config) (data verTok codeTok : PyStr)
    (rest : List PyStr) (H : Headers) (B : BodyParts) (n st : Int)
    (hver : sipVersionMatch verTok = true)
    (hsl : startLineOf data = verTok :: codeTok :: rest)
    (hcompat : pyUpper verTok ∈ cfg.compatibleVersions)
    (hint : pyInt codeTok = Option.some n)
    (hcode : cfg.responseCode n = Option.some st)
    (hH : cfg.parseRawHeaders (headerLinesOf data) = Except.ok H)
    (hB : cfg.parseBodyParts data = Except.ok B) :
    from_bytes cfg data =
      Except.ok (SIPMsg.response
        (mkMessageData (verTok :: codeTok :: rest) H B (resolveAuth H) data) st) := by
  unfold from_bytes from_bytes_inner classifyStartLine
  rw [hsl]
  simp [listGet, hver, hcompat, hint, hcode, hH, hB, Except.mapError]

/-- C1: an input whose start-line is the three-token form
`METHOD target VERSION`, with a supported method, a compatible version
and a resolving target (and succeeding header/body collaborators),
parses to a `SIPRequest` whose method is `METHOD` and whose destination
is the resolver's result for `target`. -/
theorem claim_c1_request_parse (cfg : Config) (data m t v : PyStr)
    (H : Headers) (B : BodyParts) (d : PyVal)
    (hsl : startLineOf data = [m, t, v])
    (hm : m ∈ sipMethodStrs)
    (hv : pyUpper v ∈ cfg.compatibleVersions)
    (hd : cfg.getUriHeader t = Except.ok d)
    (hH : cfg.parseRawHeaders (headerLinesOf data) = Except.ok H)
    (hB : cfg.parseBodyParts data = Except.ok B) :
    from_bytes cfg data =
      Except.ok (SIPMsg.request (mkMessageData [m, t, v] H B (resolveAuth H) data) m d) :=
  request_ok_aux cfg data m t v H B d hsl hm hv hd hH hB

/-- The concrete INVITE of the spec's test properties. -/
def inviteData : PyStr :=
  "INVITE sip:bob@example.com SIP/2.0\r\nVia: SIP/2.0/UDP host\r\n\r\n".data

/-- Witness for C1 at the spec's concrete INVITE example. -/
theorem claim_c1_witness :
    startLineOf inviteData =
      ["INVITE".data, "sip:bob@example.com".data, "SIP/2.0".data] ∧
    from_bytes testConfig inviteData =
      Except.ok (SIPMsg.request
        (mkMessageData
          ["INVITE".data, "sip:bob@example.com".data, "SIP/2.0".data]
          [("Via: SIP/2.0/UDP host".data, PyVal.pynone)] []
          (resolveAuth [("Via: SIP/2.0/UDP host".data, PyVal.pynone)])
          inviteData)
        "INVITE".data (PyVal.pystr "sip:bob@example.com".data)) :=
  ⟨by decide,
   claim_c1_request_parse testConfig inviteData
     "INVITE".data "sip:bob@example.com".data "SIP/2.0".data
     [("Via: SIP/2.0/UDP host".data, PyVal.pynone)] []
     (PyVal.pystr "sip:bob@example.com".data)
     (by decide) (by decide) (by decide) rfl rfl rfl⟩

/-- C2: an input whose start-line has the form `VERSION CODE REASON`,
with a first token matching the protocol-version grammar, a compatible
version and a code resolving through the status lookup (and succeeding
header/body collaborators), parses to a `SIPResponse` whose status is
the looked-up code. -/
theorem claim_c2_response_parse (cfg : Config) (data verTok codeTok : PyStr)
    (rest : List PyStr) (H : Headers) (B : BodyParts) (n st : Int)
    (hver : sipVersionMatch verTok = true)
    (hsl : startLineOf data = verTok :: codeTok :: rest)
    (hcompat : pyUpper verTok ∈ cfg.compatibleVersions)
    (hint : pyInt codeTok = Option.some n)
    (hcode : cfg.responseCode n = Option.some st)
    (hH : cfg.parseRawHeaders (headerLinesOf data) = Except.ok H)
    (hB : cfg.parseBodyParts data = Except.ok B) :
    from_bytes cfg data =
      Except.ok (SIPMsg.response
        (mkMessageData (verTok :: codeTok :: rest) H B (resolveAuth H) data) st) :=
  response_ok_aux cfg data verTok codeTok rest H B n st hver hsl hcompat hint hcode hH hB

/-- The concrete 200 OK of the spec's test properties. -/
def okData : PyStr := "SIP/2.0 200 OK\r\nVia: SIP/2.0/UDP host\r\n\r\n".data

/-- Witness for C2 at the spec's concrete 200 OK example. -/
theorem claim_c2_witness :
    startLineOf okData = ["SIP/2.0".data, "200".data, "OK".data] ∧
    from_bytes testConfig okData =
      Except.ok (SIPMsg.response
        (mkMessageData ["SIP/2.0".data, "200".data, "OK".data]
          [("Via: SIP/2.0/UDP host".data, PyVal.pynone)] []
          (resolveAuth [("Via: SIP/2.0/UDP host".data, PyVal.pynone)])
          okData)
        200) :=
  ⟨by decide,
   claim_c2_response_parse testConfig okData "SIP/2.0".data "200".data
     ["OK".data] [("Via: SIP/2.0/UDP host".data, PyVal.pynone)] [] 200 200
     (by decide) (by decide) (by decide) (by decide) (by decide) rfl rfl⟩

/-- C3: authentication resolution follows the strict priority
`WWW-Authenticate` > `Authorization` > `Proxy-Authenticate`: the first
present header wins and later ones are ignored even when several are
present; with none of the three present the result is the empty
mapping.  (`from_bytes` stores exactly `resolveAuth` of the parsed
headers, as visible in the success theorems.) -/
theorem claim_c3_auth_priority (h : Headers) :
    (dictContains h "WWW-Authenticate".data = true →
      resolveAuth h = dictGetD h "WWW-Authenticate".data) ∧
    (dictContains h "WWW-Authenticate".data = false →
     dictContains h "Authorization".data = true →
      resolveAuth h = dictGetD h "Authorization".data) ∧
    (dictContains h "WWW-Authenticate".data = false →
     dictContains h "Authorization".data = false →
     dictContains h "Proxy-Authenticate".data = true →
      resolveAuth h = dictGetD h "Proxy-Authenticate".data) ∧
    (dictContains h "WWW-Authenticate".data = false →
     dictContains h "Authorization".data = false →
     dictContains h "Proxy-Authenticate".data = false →
      resolveAuth h = PyVal.pydict []) := by
  refine ⟨?_, ?_, ?_, ?_⟩ <;> intros <;> simp [resolveAuth, *]

/-- Witness for C3: the spec's scenario of a credential header together
with a second challenge header resolves to the credential value. -/
theorem claim_c3_witness :
    dictContains
      [("Authorization".data, PyVal.pystr "Digest creds".data),
       ("Proxy-Authenticate".data, PyVal.pystr "Digest challenge".data)]
      "WWW-Authenticate".data = false ∧
    resolveAuth
      [("Authorization".data, PyVal.pystr "Digest creds".data),
       ("Proxy-Authenticate".data, PyVal.pystr "Digest challenge".data)] =
    dictGetD
      [("Authorization".data, PyVal.pystr "Digest creds".data),
       ("Proxy-Authenticate".data, PyVal.pystr "Digest challenge".data)]
      "Authorization".data :=
  ⟨by decide,
   (claim_c3_auth_priority
     [("Authorization".data, PyVal.pystr "Digest creds".data),
      ("Proxy-Authenticate".data, PyVal.pystr "Digest challenge".data)]).2.1
     (by decide) (by decide)⟩

/-- First-match characterization of the sdp scan of `__init__`: either
no body part has the session-description content-type and nothing is
found, or the list decomposes around the first such part. -/
theorem findSdp_spec (bps : BodyParts) :
    (findSdpTuple bps = Option.none ∧ ∀ p ∈ bps, p.1 ≠ sdpType) ∨
    (∃ pre payload post, bps = pre ++ (sdpType, payload) :: post ∧
      (∀ p ∈ pre, p.1 ≠ sdpType) ∧
      findSdpTuple bps = Option.some (sdpType, payload)) := by
  induction bps with
  | nil => left; exact ⟨rfl, by simp⟩
  | cons hd tl ih =>
    by_cases hk : hd.1 = sdpType
    · right
      have hkb : (hd.1 == sdpType) = true := beq_iff_eq.mpr hk
      have hstep : findSdpTuple (hd :: tl) = Option.some hd := by
        simp only [findSdpTuple, List.find?, hkb]
      refine ⟨[], hd.2, tl, ?_, by simp, ?_⟩
      · simp only [List.nil_append]
        rw [← hk]
      · rw [hstep, ← hk]
    · have hkb : (hd.1 == sdpType) = false := beq_false_of_ne hk
      have hstep : findSdpTuple (hd :: tl) = findSdpTuple tl := by
        simp only [findSdpTuple, List.find?, hkb]
      rcases ih with ⟨hnone, hall⟩ | ⟨pre, payload, post, heq, hpre, hfind⟩
      · left
        refine ⟨hstep.trans hnone, ?_⟩
        intro p hp
        rcases List.mem_cons.mp hp with hphd | hptl
        · rw [hphd]; exact hk
        · exact hall p hptl
      · right
        refine ⟨hd :: pre, payload, post, by rw [List.cons_append, heq], ?_,
          hstep.trans hfind⟩
        intro p hp
        rcases List.mem_cons.mp hp with hphd | hppre
        · rw [hphd]; exact hk
        · exact hpre p hppre

/-- C4: the legacy `body` field of every constructed message equals the
payload of the first body part whose content-type is
`application/sdp` when such a part exists, and the "no payload"
sentinel otherwise. -/
theorem claim_c4_legacy_payload (sl : List PyStr) (H : Headers)
    (bps : BodyParts) (auth : PyVal) (raw : PyStr) :
    ((∀ p ∈ bps, p.1 ≠ sdpType) ∧
      (mkMessageData sl H bps auth raw).body = noPayloadSentinel) ∨
    (∃ pre payload post, bps = pre ++ (sdpType, payload) :: post ∧
      (∀ p ∈ pre, p.1 ≠ sdpType) ∧
      (mkMessageData sl H bps auth raw).body = payload) := by
  rcases findSdp_spec bps with ⟨hnone, hall⟩ | ⟨pre, payload, post, heq, hpre, hfind⟩
  · left
    exact ⟨hall, by simp [mkMessageData, hnone]⟩
  · right
    exact ⟨pre, payload, post, heq, hpre, by simp [mkMessageData, hfind]⟩

/-- If no body part carries the sdp content-type, nothing is found. -/
theorem findSdp_eq_none (bps : BodyParts) (hnone : ∀ p ∈ bps, p.1 ≠ sdpType) :
    findSdpTuple bps = Option.none := by
  rcases findSdp_spec bps with ⟨h, _⟩ | ⟨pre, payload, post, heq, _, _⟩
  · exact h
  · exfalso
    exact hnone (sdpType, payload) (by rw [heq]; simp) rfl

/-- C9: when no body part has content-type `application/sdp`, the
legacy `body` field is exactly the one-entry mapping
`{'content': None}` — never the empty mapping and never a bare null. -/
theorem claim_c9_sentinel (sl : List PyStr) (H : Headers) (bps : BodyParts)
    (auth : PyVal) (raw : PyStr) (hnone : ∀ p ∈ bps, p.1 ≠ sdpType) :
    (mkMessageData sl H bps auth raw).body =
      PyVal.pydict [("content".data, PyVal.pynone)] ∧
    (mkMessageData sl H bps auth raw).body ≠ PyVal.pydict [] ∧
    (mkMessageData sl H bps auth raw).body ≠ PyVal.pynone := by
  have hfind := findSdp_eq_none bps hnone
  have hbody : (mkMessageData sl H bps auth raw).body = noPayloadSentinel := by
    simp [mkMessageData, hfind]
  refine ⟨hbody, ?_, ?_⟩
  · rw [hbody]
    intro h
    injection h with h1
    exact absurd h1 (List.cons_ne_nil _ _)
  · rw [hbody]
    intro h
    exact PyVal.noConfusion h

/-- Witness for C9: a message holding only a non-sdp body part carries
the `{'content': None}` sentinel. -/
theorem claim_c9_witness :
    (mkMessageData [] [] [("text/plain".data, PyVal.pystr "hi".data)]
        (PyVal.pydict []) []).body =
      PyVal.pydict [("content".data, PyVal.pynone)] ∧
    (mkMessageData [] [] [("text/plain".data, PyVal.pystr "hi".data)]
        (PyVal.pydict []) []).body ≠ PyVal.pydict [] :=
  ⟨(claim_c9_sentinel [] [] [("text/plain".data, PyVal.pystr "hi".data)]
      (PyVal.pydict []) [] (by decide)).1,
   (claim_c9_sentinel [] [] [("text/plain".data, PyVal.pystr "hi".data)]
      (PyVal.pydict []) [] (by decide)).2.1⟩

/-- C5: an input with no blank-line separator is not an error: the
entire input becomes the header block, and with a valid request-shaped
start line and succeeding collaborators (the Payload-Part Extractor,
per the spec, yields no parts for the empty payload block) the parse
succeeds with an empty body-part sequence. -/
theorem claim_c5_no_separator (cfg : Config) (data m t v : PyStr)
    (H : Headers) (d : PyVal)
    (hnosep : splitBlank data = Option.none)
    (hsl : startLineOf data = [m, t, v])
    (hm : m ∈ sipMethodStrs)
    (hv : pyUpper v ∈ cfg.compatibleVersions)
    (hd : cfg.getUriHeader t = Except.ok d)
    (hH : cfg.parseRawHeaders (headerLinesOf data) = Except.ok H)
    (hext : cfg.parseBodyParts data = Except.ok []) :
    headerBlock data = data ∧
    from_bytes cfg data =
      Except.ok (SIPMsg.request (mkMessageData [m, t, v] H [] (resolveAuth H) data) m d) ∧
    (mkMessageData [m, t, v] H [] (resolveAuth H) data).body_parts = [] := by
  refine ⟨?_, ?_, rfl⟩
  · simp [headerBlock, hnosep]
  · exact request_ok_aux cfg data m t v H [] d hsl hm hv hd hH hext

/-- A concrete INVITE with headers but no blank-line separator. -/
def noSepData : PyStr :=
  "INVITE sip:bob@example.com SIP/2.0\r\nVia: SIP/2.0/UDP host".data

/-- Witness for C5: the separator-less INVITE parses successfully with
no body parts. -/
theorem claim_c5_witness :
    splitBlank noSepData = Option.none ∧
    headerBlock noSepData = noSepData ∧
    from_bytes testConfig noSepData =
      Except.ok (SIPMsg.request
        (mkMessageData
          ["INVITE".data, "sip:bob@example.com".data, "SIP/2.0".data]
          [("Via: SIP/2.0/UDP host".data, PyVal.pynone)] []
          (resolveAuth [("Via: SIP/2.0/UDP host".data, PyVal.pynone)])
          noSepData)
        "INVITE".data (PyVal.pystr "sip:bob@example.com".data)) :=
  ⟨by decide,
   (claim_c5_no_separator testConfig noSepData
     "INVITE".data "sip:bob@example.com".data "SIP/2.0".data
     [("Via: SIP/2.0/UDP host".data, PyVal.pynone)]
     (PyVal.pystr "sip:bob@example.com".data)
     (by decide) (by decide) (by decide) (by decide) rfl rfl rfl).1,
   (claim_c5_no_separator testConfig noSepData
     "INVITE".data "sip:bob@example.com".data "SIP/2.0".data
     [("Via: SIP/2.0/UDP host".data, PyVal.pynone)]
     (PyVal.pystr "sip:bob@example.com".data)
     (by decide) (by decide) (by decide) (by decide) rfl rfl rfl).2.1⟩

/-- C6: a version token absent (after upper-casing) from the
compatible set fails with the `UnsupportedVersion` parse error — the
directly raised `SIPParseError` carrying the version message — for
request-shaped input (version in third position) and response-shaped
input (version in first position) alike. -/
theorem claim_c6_unsupported_version (cfg : Config) :
    (∀ data m t v rest, startLineOf data = m :: t :: v :: rest →
      sipVersionMatch m = false →
      pyUpper v ∉ cfg.compatibleVersions →
      from_bytes cfg data = Except.error (Exc.sipMsg (versionErrMsg v))) ∧
    (∀ data verTok rest, startLineOf data = verTok :: rest →
      sipVersionMatch verTok = true →
      pyUpper verTok ∉ cfg.compatibleVersions →
      from_bytes cfg data = Except.error (Exc.sipMsg (versionErrMsg verTok))) := by
  constructor
  · intro data m t v rest hsl hnv hv
    unfold from_bytes from_bytes_inner classifyStartLine
    rw [hsl]
    simp [listGet, hnv, hv, Except.mapError, normalizeExc, Exc.isSIPParseError]
  · intro data verTok rest hsl hver hv
    unfold from_bytes from_bytes_inner classifyStartLine
    rw [hsl]
    simp [listGet, hver, hv, Except.mapError, normalizeExc, Exc.isSIPParseError]

/-- Witness for C6: `SIP/3.0` is rejected as an unsupported version in
both a request start-line and a response start-line. -/
theorem claim_c6_witness :
    from_bytes testConfig "INVITE sip:bob@example.com SIP/3.0\r\n\r\n".data =
      Except.error (Exc.sipMsg (versionErrMsg "SIP/3.0".data)) ∧
    from_bytes testConfig "SIP/3.0 200 OK\r\n\r\n".data =
      Except.error (Exc.sipMsg (versionErrMsg "SIP/3.0".data)) :=
  ⟨(claim_c6_unsupported_version testConfig).1
     "INVITE sip:bob@example.com SIP/3.0\r\n\r\n".data
     "INVITE".data "sip:bob@example.com".data "SIP/3.0".data []
     (by decide) (by decide) (by decide),
   (claim_c6_unsupported_version testConfig).2
     "SIP/3.0 200 OK\r\n\r\n".data
     "SIP/3.0".data ["200".data, "OK".data]
     (by decide) (by decide) (by decide)⟩

/-- C7 counterexample: on a request-shaped start-line with only two
tokens the parse fails with the generic wrapped-failure form of the
parse error — a `SIPParseError` wrapping the `IndexError` as cause —
and not with any distinct directly-raised sub-kind such as a
`MalformedStartLine` error (no such kind exists in the code). -/
theorem claim_c7_counterexample :
    from_bytes testConfig "INVITE sip:bob@example.com\r\n\r\n".data =
      Except.error (Exc.sipWrap Exc.indexError) ∧
    (Exc.sipWrap Exc.indexError).isWrappedFailure = true ∧
    ∀ msg, Exc.sipWrap Exc.indexError ≠ Exc.sipMsg msg :=
  ⟨rfl, rfl, fun _ h => Exc.noConfusion h⟩

/-- C7 (amended): a start-line with too few tokens — a request-shaped
line with fewer than three tokens, or a response-shaped line (with
compatible version) with fewer than two — fails with the generic
wrapped-failure parse error carrying the `IndexError` as cause; there
is no distinct `MalformedStartLine` kind. -/
theorem claim_c7_short_startline_wrapped (cfg : Config) :
    (∀ data m, startLineOf data = [m] → sipVersionMatch m = false →
      from_bytes cfg data = Except.error (Exc.sipWrap Exc.indexError)) ∧
    (∀ data m t, startLineOf data = [m, t] → sipVersionMatch m = false →
      from_bytes cfg data = Except.error (Exc.sipWrap Exc.indexError)) ∧
    (∀ data verTok, startLineOf data = [verTok] → sipVersionMatch verTok = true →
      pyUpper verTok ∈ cfg.compatibleVersions →
      from_bytes cfg data = Except.error (Exc.sipWrap Exc.indexError)) := by
  refine ⟨?_, ?_, ?_⟩
  · intro data m hsl hnv
    unfold from_bytes from_bytes_inner classifyStartLine
    rw [hsl]
    simp [listGet, hnv, Except.mapError, normalizeExc, Exc.isSIPParseError]
  · intro data m t hsl hnv
    unfold from_bytes from_bytes_inner classifyStartLine
    rw [hsl]
    simp [listGet, hnv, Except.mapError, normalizeExc, Exc.isSIPParseError]
  · intro data verTok hsl hver hcompat
    unfold from_bytes from_bytes_inner classifyStartLine
    rw [hsl]
    simp [listGet, hver, hcompat, Except.mapError, normalizeExc, Exc.isSIPParseError]

/-- Witness for the amended C7 at concrete short start-lines. -/
theorem claim_c7_witness :
    from_bytes testConfig "INVITE\r\n\r\n".data =
      Except.error (Exc.sipWrap Exc.indexError) ∧
    from_bytes testConfig "SIP/2.0\r\n\r\n".data =
      Except.error (Exc.sipWrap Exc.indexError) :=
  ⟨(claim_c7_short_startline_wrapped testConfig).1 "INVITE\r\n\r\n".data
     "INVITE".data (by decide) (by decide),
   (claim_c7_short_startline_wrapped testConfig).2.2 "SIP/2.0\r\n\r\n".data
     "SIP/2.0".data (by decide) (by decide) (by decide)⟩

/-- C8: every failure of the parse surfaces in the `SIPParseError`
family: an exception that is already a `SIPParseError` is re-raised
unchanged, any other exception is replaced by a `SIPParseError`
wrapping it as cause, and the same holds at the string entry point. -/
theorem claim_c8_error_family (cfg : Config) (data : PyStr) :
    (∀ e, from_bytes cfg data = Except.error e → e.isSIPParseError = true) ∧
    (∀ e0, from_bytes_inner cfg data = Except.error e0 →
      (e0.isSIPParseError = true → from_bytes cfg data = Except.error e0) ∧
      (e0.isSIPParseError = false →
        from_bytes cfg data = Except.error (Exc.sipWrap e0))) ∧
    (∀ e, from_string cfg data = Except.error e → e.isSIPParseError = true) := by
  have hnorm : ∀ e0 : Exc, (normalizeExc e0).isSIPParseError = true := by
    intro e0
    cases e0 <;> rfl
  have hsipnorm : ∀ e0 : Exc, e0.isSIPParseError = true → normalizeExc e0 = e0 := by
    intro e0 h
    unfold normalizeExc
    rw [h]
    simp
  have hwrapnorm : ∀ e0 : Exc, e0.isSIPParseError = false →
      normalizeExc e0 = Exc.sipWrap e0 := by
    intro e0 h
    unfold normalizeExc
    rw [h]
    simp
  have hfb : ∀ e0, from_bytes_inner cfg data = Except.error e0 →
      from_bytes cfg data = Except.error (normalizeExc e0) := by
    intro e0 h
    rw [from_bytes, h]
    rfl
  have hok : ∀ v, from_bytes_inner cfg data = Except.ok v →
      from_bytes cfg data = Except.ok v := by
    intro v h
    rw [from_bytes, h]
    rfl
  have hbytes : ∀ e, from_bytes cfg data = Except.error e → e.isSIPParseError = true := by
    intro e he
    cases hinner : from_bytes_inner cfg data with
    | ok v =>
      rw [hok v hinner] at he
      exact absurd he (by simp)
    | error e0 =>
      rw [hfb e0 hinner] at he
      injection he with h1
      rw [← h1]
      exact hnorm e0
  refine ⟨hbytes, ?_, ?_⟩
  · intro e0 he0
    constructor
    · intro hsip
      rw [hfb e0 he0, hsipnorm e0 hsip]
    · intro hnot
      rw [hfb e0 he0, hwrapnorm e0 hnot]
  · intro e he
    rw [from_string] at he
    have hee : (from_bytes cfg data).mapError normalizeExc = Except.error e := he
    cases hfbv : from_bytes cfg data with
    | ok v =>
      rw [hfbv] at hee
      exact absurd hee (by simp [Except.mapError])
    | error e1 =>
      rw [hfbv] at hee
      have h1 : normalizeExc e1 = e := by
        simpa [Except.mapError] using hee
      rw [← h1]
      rw [hsipnorm e1 (hbytes e1 hfbv)]
      exact hbytes e1 hfbv

/-- Witness for C8: a malformed input whose inner failure is a plain
`IndexError` surfaces wrapped, inside the parse-error family. -/
theorem claim_c8_witness :
    from_bytes testConfig "HELLO\r\n\r\n".data =
      Except.error (Exc.sipWrap Exc.indexError) ∧
    (Exc.sipWrap Exc.indexError).isSIPParseError = true ∧
    from_string testConfig "HELLO\r\n\r\n".data =
      Except.error (Exc.sipWrap Exc.indexError) :=
  ⟨rfl,
   (claim_c8_error_family testConfig "HELLO\r\n\r\n".data).1
     (Exc.sipWrap Exc.indexError) rfl,
   rfl⟩

/-- C10: validation is asymmetric in case sensitivity: the version
token is upper-cased before the compatible-set membership test (a
lowercase version whose upper-casing is compatible passes, reaching
the method check), while the method token is compared case-sensitively
(`invite` is rejected as unsupported even though `INVITE` is a
supported method and the version is compatible). -/
theorem claim_c10_case_asymmetry (cfg : Config) :
    (∀ data m t v, startLineOf data = [m, t, v] →
      sipVersionMatch m = false →
      pyUpper v ∈ cfg.compatibleVersions →
      m ∉ sipMethodStrs →
      from_bytes cfg data = Except.error (Exc.sipMsg (methodErrMsg m))) ∧
    "invite".data ∉ sipMethodStrs ∧
    "INVITE".data ∈ sipMethodStrs ∧
    pyUpper "sip/2.0".data = "SIP/2.0".data := by
  refine ⟨?_, by decide, by decide, by decide⟩
  intro data m t v hsl hnv hv hm
  unfold from_bytes from_bytes_inner classifyStartLine
  rw [hsl]
  simp [listGet, hnv, hv, hm, Except.mapError, normalizeExc, Exc.isSIPParseError]

/-- Witness for C10: `invite sip:bob@example.com sip/2.0` passes the
version check (lowercase version upper-cased to a compatible one) and
is rejected on the case-sensitive method comparison. -/
theorem claim_c10_witness :
    from_bytes testConfig "invite sip:bob@example.com sip/2.0\r\n\r\n".data =
      Except.error (Exc.sipMsg (methodErrMsg "invite".data)) :=
  (claim_c10_case_asymmetry testConfig).1
    "invite sip:bob@example.com sip/2.0\r\n\r\n".data
    "invite".data "sip:bob@example.com".data "sip/2.0".data
    (by decide) (by decide) (by decide) (by decide)
